import Mathlib

/-!
Verification of the user-records service (src/main.py) against its
specification.

The program is a FastAPI application over a single SQLite table `personas`
with seven columns: an integer auto-increment primary key `id` and six text
columns `username, nacimiento, numero, gmail, profesion, certificado_N`.
We embed the database state, the pydantic request models, and the four
operations (`nuevo_usuario`, `obtener_usuarios`,
`obtener_usuarios_por_profesion`, `editar_usuario`) together with the route
handlers that wrap them, and prove the spec's claims about them.

Python failure modes are made explicit: a pydantic `ValidationError`, a
FastAPI `HTTPException` with a status code, and Python's
`UnboundLocalError` (a local variable read before assignment) each become a
constructor of an error type, and every operation returns `Except`.
-/

/-- Failure outcomes of the Python code: `http s` is a raised
`HTTPException(status_code=s)`; `validation` is a pydantic `ValidationError`
raised while constructing a model instance; `unboundLocal` is Python's
`UnboundLocalError`, raised when a local variable is read before it was ever
assigned. -/
inductive Err where
  | http (status : Nat)
  | validation
  | unboundLocal
deriving Repr, DecidableEq

/-- One row of the `personas` table, in `SELECT *` column order
(`row[0]` = id, ..., `row[6]` = certificado_N). The `certificado_N` column
can hold SQL NULL (written `none`): `editar_usuario` binds
`user.certificado_N`, which is `None` when the field was omitted from the
`UserUpdate` body. -/
structure StoredRow where
  id : Int
  username : String
  nacimiento : String
  numero : String
  gmail : String
  profesion : String
  certificado_N : Option String
deriving Repr, DecidableEq

/-- Modelled from the spec: the `personas` table schema is not created
anywhere under src/; per the spec it is one table with an integer
auto-increment primary key plus six text columns. `nextId` models the
store's auto-increment counter: SQLite's `cursor.lastrowid` after an
`INSERT` is the freshly assigned key. -/
structure DB where
  rows : List StoredRow
  nextId : Int
deriving Repr, DecidableEq

/-- Invariant maintained by the auto-increment key: the counter is at least 1
and strictly above every key already in the table, so the next assigned id is
a positive integer never previously assigned. -/
def DB.WF (db : DB) : Prop :=
  1 ≤ db.nextId ∧ ∀ r ∈ db.rows, r.id < db.nextId

instance (db : DB) : Decidable (DB.WF db) := by
  unfold DB.WF; infer_instance

/-- Splits a character list at its unique `@`, when there is exactly one. -/
def splitAtSign : List Char → Option (List Char × List Char)
  | [] => none
  | c :: cs =>
    if c = '@' then
      if cs.contains '@' then none else some ([], cs)
    else
      match splitAtSign cs with
      | some (l, r) => some (c :: l, r)
      | none => none

/-- Modelled from the spec (external library): pydantic's `EmailStr`
validation accepts a syntactically valid email address. Modelled as exactly
one `@` separating a nonempty local part from a domain part that contains a
dot strictly inside it. -/
def isValidEmail (s : String) : Bool :=
  match splitAtSign s.toList with
  | some (loc, dom) =>
      !loc.isEmpty && !dom.isEmpty && dom.contains '.' &&
        dom.head? != some '.' && dom.getLast? != some '.'
  | none => false

/-- Embeds `class UserCreate(BaseModel)` (src/main.py:51-68): all six data
fields required; `gmail` is an `EmailStr`. A value of this type is the
already-validated shape. -/
structure UserCreate where
  username : String
  nacimiento : String
  numero : String
  gmail : String
  profesion : String
  certificado_N : String
deriving Repr, DecidableEq

/-- Embeds `class UserUpdate(BaseModel)` (src/main.py:70-87): like
`UserCreate` but `certificado_N: Optional[str] = None`, so an omitted field
parses to `none`. -/
structure UserUpdate where
  username : String
  nacimiento : String
  numero : String
  gmail : String
  profesion : String
  certificado_N : Option String
deriving Repr, DecidableEq

/-- Embeds `class UserInDB(UserCreate)` (src/main.py:89-102): the six data
fields (all required strings, `gmail` an `EmailStr`) plus the integer `id`
added by the subclass. -/
structure UserInDB where
  username : String
  nacimiento : String
  numero : String
  gmail : String
  profesion : String
  certificado_N : String
  id : Int
deriving Repr, DecidableEq

/-- The raw JSON body of a request in which every field is present as a
string (before pydantic validation). -/
structure RawUser where
  username : String
  nacimiento : String
  numero : String
  gmail : String
  profesion : String
  certificado_N : String
deriving Repr, DecidableEq

/-- Embeds the pydantic construction
`UserInDB(id=row[0], username=row[1], ..., certificado_N=row[6])` performed
by the two read operations. Pydantic re-validates each field in declaration
order: `gmail` must be a valid email and `certificado_N` must be a string,
so a row whose `certificado_N` column is NULL raises a `ValidationError`. -/
def rowToUserInDB (r : StoredRow) : Except Err UserInDB :=
  if isValidEmail r.gmail then
    match r.certificado_N with
    | some c => Except.ok ⟨r.username, r.nacimiento, r.numero, r.gmail, r.profesion, c, r.id⟩
    | none => Except.error Err.validation
  else Except.error Err.validation

/-- Total version of `rowToUserInDB` for rows known to be readable
(certificado_N present, gmail valid). -/
def rowToRecord (r : StoredRow) : UserInDB :=
  ⟨r.username, r.nacimiento, r.numero, r.gmail, r.profesion, r.certificado_N.getD "", r.id⟩

/-- A row that every read converts without error: its `certificado_N` column
is not NULL and its `gmail` column passes email validation. -/
def Readable (r : StoredRow) : Prop :=
  r.certificado_N.isSome = true ∧ isValidEmail r.gmail = true

instance (r : StoredRow) : Decidable (Readable r) := by
  unfold Readable; infer_instance

/-- Every row of the table is readable. Rows produced by `nuevo_usuario`
always are; an `editar_usuario` call that omitted `certificado_N` breaks
this. -/
def DB.AllReadable (db : DB) : Prop :=
  ∀ r ∈ db.rows, Readable r

instance (db : DB) : Decidable (DB.AllReadable db) := by
  unfold DB.AllReadable; infer_instance

/-- Left-to-right conversion of a result set into `UserInDB` values, as the
Python list comprehensions do: the first `ValidationError` aborts the
whole read. -/
def mapExcept (f : StoredRow → Except Err UserInDB) :
    List StoredRow → Except Err (List UserInDB)
  | [] => Except.ok []
  | x :: xs =>
    match f x with
    | Except.error e => Except.error e
    | Except.ok y =>
      match mapExcept f xs with
      | Except.error e => Except.error e
      | Except.ok ys => Except.ok (y :: ys)

/-- Embeds `nuevo_usuario` (src/main.py:117-131): INSERT the six data fields,
take `cursor.lastrowid` as the new id, commit, then build the returned
`UserInDB` — whose construction re-validates `gmail`, after the row is
already committed. -/
def nuevo_usuario (db : DB) (user : UserCreate) : Except Err UserInDB × DB :=
  let user_id := db.nextId
  let row : StoredRow :=
    ⟨user_id, user.username, user.nacimiento, user.numero, user.gmail,
      user.profesion, some user.certificado_N⟩
  let db' : DB := ⟨db.rows ++ [row], db.nextId + 1⟩
  if isValidEmail user.gmail then
    (Except.ok ⟨user.username, user.nacimiento, user.numero, user.gmail,
        user.profesion, user.certificado_N, user_id⟩, db')
  else
    (Except.error Err.validation, db')

/-- Embeds `obtener_usuarios` (src/main.py:133-142). The local `users` is
assigned only inside `for row in rows:`, so when the table is empty the
final `return users` reads a never-assigned local and raises
`UnboundLocalError`; otherwise the comprehension converts every row. -/
def obtener_usuarios (db : DB) : Except Err (List UserInDB) :=
  if db.rows.isEmpty then Except.error Err.unboundLocal
  else mapExcept rowToUserInDB db.rows

/-- Embeds `obtener_usuarios_por_profesion` (src/main.py:144-153):
`SELECT * FROM personas WHERE profesion = ?` (exact string equality), then
convert each row. The comprehension is assigned unconditionally, so an
empty result set yields an empty list. -/
def obtener_usuarios_por_profesion (db : DB) (profesion : String) :
    Except Err (List UserInDB) :=
  mapExcept rowToUserInDB (db.rows.filter (fun r => r.profesion == profesion))

/-- Embeds the route `obtener_usuarios_por_profesion_route`
(src/main.py:179-190): an empty result list is turned into
`HTTPException(404)`; any exception from the store propagates. -/
def obtener_usuarios_por_profesion_route (db : DB) (profesion : String) :
    Except Err (List UserInDB) :=
  match obtener_usuarios_por_profesion db profesion with
  | Except.error e => Except.error e
  | Except.ok [] => Except.error (Err.http 404)
  | Except.ok users => Except.ok users

/-- The effect of the UPDATE statement on one matched row
(src/main.py:163-166): all six data columns are overwritten with the bound
parameters — `certificado_N` becomes NULL when the field was omitted — and
the `id` column is untouched. -/
def applyUpdate (r : StoredRow) (user : UserUpdate) : StoredRow :=
  ⟨r.id, user.username, user.nacimiento, user.numero, user.gmail,
    user.profesion, user.certificado_N⟩

/-- Embeds `editar_usuario` (src/main.py:155-170): execute the UPDATE; when
`cursor.rowcount == 0` (no row has this id) raise `HTTPException(404)` with
the table unchanged; otherwise commit and then build the returned `UserInDB`
from the input — which raises a `ValidationError` (after the commit) when
`certificado_N` was omitted, since `UserInDB` requires it as a string. -/
def editar_usuario (db : DB) (id : Int) (user : UserUpdate) :
    Except Err UserInDB × DB :=
  if db.rows.all (fun r => r.id != id) then
    (Except.error (Err.http 404), db)
  else
    let db' : DB :=
      ⟨db.rows.map (fun r => if r.id == id then applyUpdate r user else r), db.nextId⟩
    match user.certificado_N with
    | some c =>
        (Except.ok ⟨user.username, user.nacimiento, user.numero, user.gmail,
            user.profesion, c, id⟩, db')
    | none => (Except.error Err.validation, db')

/-- Embeds the route `editar_usuario_route` (src/main.py:201-215):
`HTTPException` is re-raised as is; any other exception becomes
`HTTPException(500)`. -/
def editar_usuario_route (db : DB) (id : Int) (user : UserUpdate) :
    Except Err UserInDB × DB :=
  match editar_usuario db id user with
  | (Except.error (Err.http c), db1) => (Except.error (Err.http c), db1)
  | (Except.error _, db1) => (Except.error (Err.http 500), db1)
  | (Except.ok u, db1) => (Except.ok u, db1)

/-- Embeds the route `crear_nuevo_usuario` (src/main.py:192-199) together
with FastAPI's request validation of the `UserCreate` body: a body whose
`gmail` fails email validation is rejected with a 422 before the store is
touched; pydantic imposes no other constraint on the string fields (an empty
`username` passes). -/
def crear_nuevo_usuario (db : DB) (raw : RawUser) : Except Err UserInDB × DB :=
  if isValidEmail raw.gmail then
    nuevo_usuario db
      ⟨raw.username, raw.nacimiento, raw.numero, raw.gmail, raw.profesion,
        raw.certificado_N⟩
  else
    (Except.error (Err.http 422), db)

/-- Sample row, as created by a valid POST (§8 example of the spec). -/
def rowAna : StoredRow :=
  ⟨1, "ana", "1990-01-01", "555", "ana@x.com", "chef", some "c1"⟩

/-- Sample row whose `certificado_N` column is NULL, as left behind by an
update that omitted the field. -/
def rowSinCert : StoredRow :=
  ⟨2, "bob", "1991-02-02", "777", "bob@y.com", "piloto", none⟩

/-- Sample database holding just `rowAna`. -/
def dbAna : DB := ⟨[rowAna], 2⟩

/-- Sample database holding `rowAna` and the NULL-certificate row. -/
def dbSinCert : DB := ⟨[rowAna, rowSinCert], 3⟩

/-- Sample update body in which every field is present. -/
def updBob : UserUpdate :=
  ⟨"bob", "1991-02-02", "777", "bob@y.com", "piloto", some "c2"⟩

/-- Sample update body in which `certificado_N` was omitted. -/
def updSinCert : UserUpdate :=
  ⟨"bob", "1991-02-02", "777", "bob@y.com", "piloto", none⟩

/-- Sample create body with an empty username and a valid email. -/
def rawVacio : RawUser :=
  ⟨"", "1990-01-01", "555", "ana@x.com", "chef", "c1"⟩

/-- Sample create body matching the spec's §8 example. -/
def createAna : UserCreate :=
  ⟨"ana", "1990-01-01", "555", "ana@x.com", "chef", "c1"⟩

/-! ## Helper lemmas -/

theorem rowToUserInDB_eq_ok (r : StoredRow) (h : Readable r) :
    rowToUserInDB r = Except.ok (rowToRecord r) := by
  obtain ⟨h1, h2⟩ := h
  unfold rowToUserInDB rowToRecord
  rw [if_pos h2]
  cases hc : r.certificado_N with
  | none => rw [hc] at h1; simp at h1
  | some c => simp

theorem rowToUserInDB_cases (r : StoredRow) :
    rowToUserInDB r = Except.error Err.validation
    ∨ ∃ c, r.certificado_N = some c ∧ isValidEmail r.gmail = true
        ∧ rowToUserInDB r
            = Except.ok ⟨r.username, r.nacimiento, r.numero, r.gmail, r.profesion, c, r.id⟩ := by
  unfold rowToUserInDB
  by_cases hv : isValidEmail r.gmail = true
  · rw [if_pos hv]
    cases hc : r.certificado_N with
    | none => left; rfl
    | some c => right; exact ⟨c, rfl, hv, rfl⟩
  · rw [if_neg hv]
    left; rfl

theorem mapExcept_ok_of_readable (l : List StoredRow) (h : ∀ r ∈ l, Readable r) :
    mapExcept rowToUserInDB l = Except.ok (l.map rowToRecord) := by
  induction l with
  | nil => rfl
  | cons x xs ih =>
    have hx := rowToUserInDB_eq_ok x (h x (List.mem_cons_self x xs))
    have hxs := ih (fun r hr => h r (List.mem_cons_of_mem x hr))
    simp [mapExcept, hx, hxs]

theorem mapExcept_error_of_bad (l : List StoredRow) (x : StoredRow)
    (hx : x ∈ l) (hbad : x.certificado_N = none) :
    mapExcept rowToUserInDB l = Except.error Err.validation := by
  induction l with
  | nil => cases hx
  | cons a as ih =>
    rcases List.mem_cons.mp hx with rfl | h
    · have hxe : rowToUserInDB x = Except.error Err.validation := by
        rcases rowToUserInDB_cases x with h1 | ⟨c, hc, _, _⟩
        · exact h1
        · rw [hbad] at hc; cases hc
      simp [mapExcept, hxe]
    · rcases rowToUserInDB_cases a with h1 | ⟨c, _, _, h2⟩
      · simp [mapExcept, h1]
      · simp [mapExcept, h2, ih h]

theorem all_ne_eq_false_of_mem (db : DB) (id : Int) (r : StoredRow)
    (hr : r ∈ db.rows) (hid : r.id = id) :
    db.rows.all (fun x => x.id != id) = false := by
  cases hb : db.rows.all (fun x => x.id != id) with
  | false => rfl
  | true => exact absurd hid (bne_iff_ne.mp (List.all_eq_true.mp hb r hr))

theorem editar_usuario_snd (db : DB) (id : Int) (u : UserUpdate)
    (hguard : db.rows.all (fun x => x.id != id) = false) :
    (editar_usuario db id u).snd
      = ⟨db.rows.map (fun r => if r.id == id then applyUpdate r u else r), db.nextId⟩ := by
  cases hcu : u.certificado_N <;> simp [editar_usuario, hguard, hcu]

/-! ## Claims -/

/-- C1: the claim says that on an empty `personas` table `obtener_usuarios`
returns the empty list rather than failing. The code does not: its local
`users` is assigned only inside `for row in rows:`, so with no rows the
final `return users` reads an unassigned local and raises
`UnboundLocalError`. This theorem evaluates the embedded code at the
failing input (the empty table). -/
theorem c1_listAll_empty_table_raises :
    obtener_usuarios ⟨[], 1⟩ = Except.error Err.unboundLocal := rfl

/-- C3: updating an id that identifies no stored row raises
`HTTPException(404)` and leaves the table (and the whole store state)
exactly as it was, for every `UserUpdate` body. -/
theorem c3_update_absent_id_404_unchanged (db : DB) (id : Int) (u : UserUpdate)
    (h : ∀ r ∈ db.rows, r.id ≠ id) :
    editar_usuario db id u = (Except.error (Err.http 404), db) := by
  have hall : db.rows.all (fun r => r.id != id) = true :=
    List.all_eq_true.mpr (fun r hr => bne_iff_ne.mpr (h r hr))
  simp [editar_usuario, hall]

/-- C3 witness: updating id 5 in a table whose only row has id 1. -/
theorem c3_witness :
    (∀ r ∈ dbAna.rows, r.id ≠ (5 : Int))
    ∧ editar_usuario dbAna 5 updBob = (Except.error (Err.http 404), dbAna) :=
  ⟨by decide, c3_update_absent_id_404_unchanged dbAna 5 updBob (by decide)⟩

/-- C4: for every stored row `r` and update body omitting `certificado_N`,
`editar_usuario r.id` stores SQL NULL as the `certificado_N` of that row
(every row keeping id `r.id` has a NULL certificate afterwards, and such a
row exists), erasing the previously stored certificate. -/
theorem c4_update_omitted_cert_erases (db : DB) (r : StoredRow) (u : UserUpdate)
    (hr : r ∈ db.rows) (hc : u.certificado_N = none) :
    (applyUpdate r u ∈ (editar_usuario db r.id u).snd.rows
      ∧ (applyUpdate r u).id = r.id)
    ∧ (∀ r' ∈ (editar_usuario db r.id u).snd.rows,
        r'.id = r.id → r'.certificado_N = none) := by
  have hguard := all_ne_eq_false_of_mem db r.id r hr rfl
  rw [editar_usuario_snd db r.id u hguard]
  refine ⟨⟨List.mem_map.mpr ⟨r, hr, by simp⟩, rfl⟩, ?_⟩
  intro r' hmem hid
  obtain ⟨x, hx, hx2⟩ := List.mem_map.mp hmem
  by_cases hxe : x.id = r.id
  · rw [← hx2]
    simp [hxe, applyUpdate, hc]
  · rw [← hx2] at hid
    simp [hxe] at hid

/-- C4 witness: omitting `certificado_N` while updating the row with id 1
leaves that row with a NULL certificate. -/
theorem c4_witness :
    (rowAna ∈ dbAna.rows) ∧ updSinCert.certificado_N = none
    ∧ (∀ r' ∈ (editar_usuario dbAna rowAna.id updSinCert).snd.rows,
        r'.id = rowAna.id → r'.certificado_N = none) :=
  ⟨by decide, rfl,
    (c4_update_omitted_cert_erases dbAna rowAna updSinCert (by decide) rfl).2⟩

/-- C5: when some stored row has the given id, the update rewrites exactly
the rows carrying that id to the input's six data-field values (their id
untouched) and leaves every other row, the row order, and the id counter
unchanged: the resulting table is the pointwise rewrite of the old one. -/
theorem c5_update_frame (db : DB) (id : Int) (u : UserUpdate) (r : StoredRow)
    (hr : r ∈ db.rows) (hid : r.id = id) :
    (editar_usuario db id u).snd
      = ⟨db.rows.map (fun x => if x.id == id then applyUpdate x u else x), db.nextId⟩
    ∧ (∀ x : StoredRow, (applyUpdate x u).id = x.id
        ∧ (applyUpdate x u).username = u.username
        ∧ (applyUpdate x u).nacimiento = u.nacimiento
        ∧ (applyUpdate x u).numero = u.numero
        ∧ (applyUpdate x u).gmail = u.gmail
        ∧ (applyUpdate x u).profesion = u.profesion
        ∧ (applyUpdate x u).certificado_N = u.certificado_N)
    ∧ (∀ x ∈ db.rows, x.id ≠ id → x ∈ (editar_usuario db id u).snd.rows) := by
  have hguard := all_ne_eq_false_of_mem db id r hr hid
  have hsnd := editar_usuario_snd db id u hguard
  refine ⟨hsnd, fun x => ⟨rfl, rfl, rfl, rfl, rfl, rfl, rfl⟩, ?_⟩
  intro x hx hne
  rw [hsnd]
  exact List.mem_map.mpr ⟨x, hx, by simp [hne]⟩

/-- C5 witness: updating id 1 in the one-row sample table rewrites that row
to the input's values. -/
theorem c5_witness :
    (rowAna ∈ dbAna.rows) ∧ rowAna.id = 1
    ∧ (editar_usuario dbAna 1 updBob).snd
      = ⟨dbAna.rows.map (fun x => if x.id == (1 : Int) then applyUpdate x updBob else x),
          dbAna.nextId⟩ :=
  ⟨by decide, rfl, (c5_update_frame dbAna 1 updBob rowAna (by decide) rfl).1⟩

/-- C6: for a well-formed store and a valid body (`gmail` passes email
validation), create appends exactly one row, returns the record whose id is
the freshly assigned counter value — a positive integer carried by no
existing row — with the six data fields echoing the input, and the
auto-increment invariant is preserved. -/
theorem c6_create_fresh_id_echoes_input (db : DB) (u : UserCreate)
    (hwf : DB.WF db) (hg : isValidEmail u.gmail = true) :
    (nuevo_usuario db u).fst
      = Except.ok ⟨u.username, u.nacimiento, u.numero, u.gmail, u.profesion,
          u.certificado_N, db.nextId⟩
    ∧ (nuevo_usuario db u).snd.rows
      = db.rows ++ [⟨db.nextId, u.username, u.nacimiento, u.numero, u.gmail,
          u.profesion, some u.certificado_N⟩]
    ∧ 0 < db.nextId
    ∧ (∀ r ∈ db.rows, r.id ≠ db.nextId)
    ∧ DB.WF (nuevo_usuario db u).snd := by
  obtain ⟨h1, h2⟩ := hwf
  refine ⟨by simp [nuevo_usuario, hg], by simp [nuevo_usuario, hg], by omega,
    fun r hr => ne_of_lt (h2 r hr), ?_⟩
  have hsnd : (nuevo_usuario db u).snd
      = ⟨db.rows ++ [⟨db.nextId, u.username, u.nacimiento, u.numero, u.gmail,
          u.profesion, some u.certificado_N⟩], db.nextId + 1⟩ := by
    simp [nuevo_usuario, hg]
  rw [hsnd]
  refine ⟨by simp only []; omega, ?_⟩
  intro r hr
  simp only [] at hr ⊢
  rcases List.mem_append.mp hr with h | h
  · have := h2 r h
    omega
  · rcases List.mem_singleton.mp h with rfl
    simp

/-- C6 witness: creating the spec's §8 example user in the one-row sample
store assigns id 2 and echoes the input fields. -/
theorem c6_witness :
    DB.WF dbAna ∧ isValidEmail createAna.gmail = true
    ∧ (nuevo_usuario dbAna createAna).fst
      = Except.ok ⟨"ana", "1990-01-01", "555", "ana@x.com", "chef", "c1", 2⟩
    ∧ (nuevo_usuario dbAna createAna).snd.rows
      = dbAna.rows ++ [⟨2, "ana", "1990-01-01", "555", "ana@x.com", "chef", some "c1"⟩] :=
  ⟨by decide, by decide,
    (c6_create_fresh_id_echoes_input dbAna createAna (by decide) (by decide)).1,
    (c6_create_fresh_id_echoes_input dbAna createAna (by decide) (by decide)).2.1⟩

/-- C8: on a table whose rows are all readable, the store-level profession
lookup succeeds and returns exactly the rows whose `profesion` equals the
input under exact string equality (every returned record carries that
profession), and it returns the empty list — not an error — when no row
matches. -/
theorem c8_store_lookup_exact (db : DB) (p : String) (h : DB.AllReadable db) :
    obtener_usuarios_por_profesion db p
      = Except.ok ((db.rows.filter (fun r => r.profesion == p)).map rowToRecord)
    ∧ (∀ u ∈ (db.rows.filter (fun r => r.profesion == p)).map rowToRecord,
        u.profesion = p)
    ∧ ((∀ r ∈ db.rows, r.profesion ≠ p) →
        obtener_usuarios_por_profesion db p = Except.ok []) := by
  have hok : obtener_usuarios_por_profesion db p
      = Except.ok ((db.rows.filter (fun r => r.profesion == p)).map rowToRecord) :=
    mapExcept_ok_of_readable _ (fun r hr => h r (List.mem_of_mem_filter hr))
  refine ⟨hok, ?_, ?_⟩
  · intro u hu
    obtain ⟨r, hr, rfl⟩ := List.mem_map.mp hu
    have hpr : (r.profesion == p) = true := by
      simpa using (List.mem_filter.mp hr).2
    exact eq_of_beq hpr
  · intro hnone
    have hnil : db.rows.filter (fun r => r.profesion == p) = [] := by
      rw [List.filter_eq_nil_iff]
      intro a ha
      simpa using hnone a ha
    rw [hok, hnil]
    rfl

/-- C8 witness: looking up "chef" in the one-row sample store returns
exactly the matching record. -/
theorem c8_witness :
    DB.AllReadable dbAna
    ∧ obtener_usuarios_por_profesion dbAna "chef"
      = Except.ok [⟨"ana", "1990-01-01", "555", "ana@x.com", "chef", "c1", 1⟩] :=
  ⟨by decide, (c8_store_lookup_exact dbAna "chef" (by decide)).1⟩

/-- C2: on a table whose rows are all readable, GET /users/{profesion}
raises `HTTPException(404)` exactly when no stored row's `profesion` equals
the path parameter, and otherwise returns (status 200) precisely the
matching records. -/
theorem c2_profession_route_404_iff_no_match (db : DB) (p : String)
    (h : DB.AllReadable db) :
    (obtener_usuarios_por_profesion_route db p = Except.error (Err.http 404)
      ↔ db.rows.filter (fun r => r.profesion == p) = [])
    ∧ (db.rows.filter (fun r => r.profesion == p) ≠ [] →
        obtener_usuarios_por_profesion_route db p
          = Except.ok ((db.rows.filter (fun r => r.profesion == p)).map rowToRecord)) := by
  have hok : obtener_usuarios_por_profesion db p
      = Except.ok ((db.rows.filter (fun r => r.profesion == p)).map rowToRecord) :=
    mapExcept_ok_of_readable _ (fun r hr => h r (List.mem_of_mem_filter hr))
  cases hm : db.rows.filter (fun r => r.profesion == p) with
  | nil =>
    rw [hm] at hok
    simp only [List.map_nil] at hok
    have hroute : obtener_usuarios_por_profesion_route db p
        = Except.error (Err.http 404) := by
      unfold obtener_usuarios_por_profesion_route
      rw [hok]
    simp [hroute]
  | cons a as =>
    rw [hm] at hok
    simp only [List.map_cons] at hok
    have hroute : obtener_usuarios_por_profesion_route db p
        = Except.ok (rowToRecord a :: as.map rowToRecord) := by
      unfold obtener_usuarios_por_profesion_route
      rw [hok]
    constructor
    · simp [hroute]
    · intro _
      rw [hroute]
      simp

/-- C2 witness: a case-sensitive miss — the sample store holds profession
"chef", so looking up "Chef" yields the 404. -/
theorem c2_witness :
    DB.AllReadable dbAna
    ∧ (obtener_usuarios_por_profesion_route dbAna "Chef"
        = Except.error (Err.http 404)
      ↔ dbAna.rows.filter (fun r => r.profesion == "Chef") = []) :=
  ⟨by decide, (c2_profession_route_404_iff_no_match dbAna "Chef" (by decide)).1⟩

/-- C7: round-trip — creating a valid record in a well-formed, all-readable
store returns the record `x` plus the assigned id, and reading back by that
record's profession afterwards succeeds, includes the created record, and
the created record is the only returned record carrying the assigned id. -/
theorem c7_create_then_read_roundtrip (db : DB) (x : UserCreate)
    (hwf : DB.WF db) (hrd : DB.AllReadable db) (hg : isValidEmail x.gmail = true) :
    (nuevo_usuario db x).fst
      = Except.ok ⟨x.username, x.nacimiento, x.numero, x.gmail, x.profesion,
          x.certificado_N, db.nextId⟩
    ∧ obtener_usuarios_por_profesion (nuevo_usuario db x).snd x.profesion
      = Except.ok (((nuevo_usuario db x).snd.rows.filter
          (fun r => r.profesion == x.profesion)).map rowToRecord)
    ∧ (⟨x.username, x.nacimiento, x.numero, x.gmail, x.profesion,
          x.certificado_N, db.nextId⟩ : UserInDB)
        ∈ ((nuevo_usuario db x).snd.rows.filter
            (fun r => r.profesion == x.profesion)).map rowToRecord
    ∧ (∀ u ∈ ((nuevo_usuario db x).snd.rows.filter
          (fun r => r.profesion == x.profesion)).map rowToRecord,
        u.id = db.nextId →
        u = ⟨x.username, x.nacimiento, x.numero, x.gmail, x.profesion,
          x.certificado_N, db.nextId⟩) := by
  obtain ⟨h1, h2⟩ := hwf
  have hsnd : (nuevo_usuario db x).snd
      = ⟨db.rows ++ [⟨db.nextId, x.username, x.nacimiento, x.numero, x.gmail,
          x.profesion, some x.certificado_N⟩], db.nextId + 1⟩ := by
    simp [nuevo_usuario, hg]
  have hrd' : ∀ r ∈ (nuevo_usuario db x).snd.rows, Readable r := by
    rw [hsnd]
    intro r hr
    rcases List.mem_append.mp hr with hmem | hmem
    · exact hrd r hmem
    · rcases List.mem_singleton.mp hmem with rfl
      exact ⟨rfl, hg⟩
  refine ⟨by simp [nuevo_usuario, hg],
    mapExcept_ok_of_readable _ (fun r hr => hrd' r (List.mem_of_mem_filter hr)),
    ?_, ?_⟩
  · rw [hsnd]
    refine List.mem_map.mpr
      ⟨⟨db.nextId, x.username, x.nacimiento, x.numero, x.gmail, x.profesion,
          some x.certificado_N⟩, ?_, rfl⟩
    refine List.mem_filter.mpr ⟨by simp, by simp⟩
  · intro u hu hid
    rw [hsnd] at hu
    obtain ⟨r, hr, rfl⟩ := List.mem_map.mp hu
    rcases List.mem_append.mp (List.mem_of_mem_filter hr) with hmem | hmem
    · exfalso
      have hlt := h2 r hmem
      simp [rowToRecord] at hid
      omega
    · rcases List.mem_singleton.mp hmem with rfl
      rfl

/-- C7 witness: creating the §8 example user and reading back by
profession "chef" includes the created record with the assigned id 2. -/
theorem c7_witness :
    DB.WF dbAna ∧ DB.AllReadable dbAna ∧ isValidEmail createAna.gmail = true
    ∧ (⟨"ana", "1990-01-01", "555", "ana@x.com", "chef", "c1", 2⟩ : UserInDB)
        ∈ ((nuevo_usuario dbAna createAna).snd.rows.filter
            (fun r => r.profesion == "chef")).map rowToRecord :=
  ⟨by decide, by decide, by decide,
    (c7_create_then_read_roundtrip dbAna createAna (by decide) (by decide)
      (by decide)).2.2.1⟩

/-- C9 counterexample: the claim says POST /users rejects an empty username
with a validation error and inserts nothing. In the code `username: str`
imposes no non-emptiness: this concrete request with username = "" (and a
valid email) passes validation, succeeds, and inserts one row. -/
theorem c9_counterexample :
    (crear_nuevo_usuario ⟨[], 1⟩ rawVacio).fst
      = Except.ok ⟨"", "1990-01-01", "555", "ana@x.com", "chef", "c1", 1⟩
    ∧ (crear_nuevo_usuario ⟨[], 1⟩ rawVacio).snd.rows
      = [⟨1, "", "1990-01-01", "555", "ana@x.com", "chef", some "c1"⟩] :=
  ⟨rfl, rfl⟩

/-- C9 amended: validation of POST /users checks only that `gmail` is a
syntactically valid email; a request whose username is the empty string (and
whose gmail is valid) is accepted — the create succeeds, echoes the empty
username, and appends one row. -/
theorem c9_amended_empty_username_accepted (db : DB) (raw : RawUser)
    (hu : raw.username = "") (hg : isValidEmail raw.gmail = true) :
    (crear_nuevo_usuario db raw).fst
      = Except.ok ⟨"", raw.nacimiento, raw.numero, raw.gmail, raw.profesion,
          raw.certificado_N, db.nextId⟩
    ∧ (crear_nuevo_usuario db raw).snd.rows
      = db.rows ++ [⟨db.nextId, "", raw.nacimiento, raw.numero, raw.gmail,
          raw.profesion, some raw.certificado_N⟩] := by
  constructor <;> simp [crear_nuevo_usuario, nuevo_usuario, hg, hu]

/-- C9 witness: the empty-username body against the one-row sample store. -/
theorem c9_witness :
    rawVacio.username = "" ∧ isValidEmail rawVacio.gmail = true
    ∧ (crear_nuevo_usuario dbAna rawVacio).fst
      = Except.ok ⟨"", "1990-01-01", "555", "ana@x.com", "chef", "c1", 2⟩ :=
  ⟨rfl, by decide,
    (c9_amended_empty_username_accepted dbAna rawVacio rfl (by decide)).1⟩

/-- C10: once a stored row's `certificado_N` is NULL, every read whose
result set includes that row fails with a pydantic `ValidationError` while
building the `UserInDB` output (surfacing as a 500), instead of returning a
sequence: both the list-all read and the profession lookup matching that
row error out. -/
theorem c10_null_cert_breaks_reads (db : DB) (r : StoredRow)
    (hr : r ∈ db.rows) (hc : r.certificado_N = none) :
    obtener_usuarios db = Except.error Err.validation
    ∧ obtener_usuarios_por_profesion db r.profesion
      = Except.error Err.validation := by
  constructor
  · have hne : db.rows.isEmpty = false := by
      cases hrows : db.rows with
      | nil => rw [hrows] at hr; cases hr
      | cons a as => rfl
    have hbad := mapExcept_error_of_bad db.rows r hr hc
    simp [obtener_usuarios, hne, hbad]
  · have hmem : r ∈ db.rows.filter (fun x => x.profesion == r.profesion) :=
      List.mem_filter.mpr ⟨hr, by simp⟩
    exact mapExcept_error_of_bad _ r hmem hc

/-- C10 witness: the sample store whose second row has a NULL certificate —
both reads fail with a `ValidationError`. -/
theorem c10_witness :
    (rowSinCert ∈ dbSinCert.rows) ∧ rowSinCert.certificado_N = none
    ∧ obtener_usuarios dbSinCert = Except.error Err.validation :=
  ⟨by decide, rfl,
    (c10_null_cert_breaks_reads dbSinCert rowSinCert (by decide) rfl).1⟩
